import Mathlib

/-!
Verification of the "magic mirror" sticker application.

The repository ships three variants of the same React `App` component:
* `part_004` (called variant B below, no game mode in that file but the same
  interaction core as the second variant of `part_003`),
* `part_003` lines 1-787 (variant A), and
* `part_003` lines 788-1754 (variant B with game mode; its interaction core,
  `handleHandDrop`, `handleAddSticker`, `cycleAnimalFace` and face-tracking pass
  are textually the same as `part_004`'s).

Coordinates, scales, rotations and timestamps are embedded as rationals.
`Math.hypot` and `Math.atan2 · (180/π)` are irrational-valued; the embedding
keeps them as explicit function parameters (`hypot`, `atan2deg`) so every
definition stays executable; no claim below depends on their values.
-/

namespace MagicMirror

/-- A normalized 2-D landmark point (MediaPipe output). -/
structure Point where
  x : ℚ
  y : ℚ
deriving Repr, DecidableEq

/-- The result of `getAnchorData` (src/unnamed/part_000): an anchor sample with
normalized position, normalized face-width scale and roll rotation in degrees. -/
structure AnchorData where
  x : ℚ
  y : ℚ
  scale : ℚ
  rotation : ℚ
deriving Repr, DecidableEq

/-- Model of `FaceLandmarkerResult`: a list of landmark sets; each set is modelled as a
total index function (the real face landmarker always returns 478 points). -/
structure FaceLandmarkerResult where
  faceLandmarks : List (Nat → Point)

/-- The `AnchorType` union from src/types.ts. -/
inductive AnchorType where
  | head | eyes | body | face | none
deriving Repr, DecidableEq

/-- The `Category` union from src/types.ts. -/
inductive Category where
  | hats | glasses | tops | hair | accessories | faces
deriving Repr, DecidableEq

/-- The `'emoji' | 'svg'` discriminator from src/types.ts. -/
inductive StickerType where
  | emoji | svg
deriving Repr, DecidableEq

/-- The `StickerItem` record from src/types.ts. `opacity`, `createdAt` and `lifespan` are
optional fields in the source. -/
structure StickerItem where
  id : String
  type : StickerType
  content : String
  category : Category
  x : ℚ
  y : ℚ
  scale : ℚ
  rotation : ℚ
  opacity : Option ℚ := Option.none
  anchorType : AnchorType
  anchorOffset : Point
  baseScale : ℚ
  baseRotation : ℚ
  createdAt : Option ℚ := Option.none
  lifespan : Option ℚ := Option.none
deriving Repr, DecidableEq

/-- The `CoinItem` record from src/types.ts. -/
structure CoinItem where
  id : String
  x : ℚ
  y : ℚ
  scale : ℚ
  value : ℚ
  collected : Bool
deriving Repr, DecidableEq

/-- The `Asset` record from src/types.ts (rendering payload strings are abbreviated,
they are only compared for equality by the code). -/
structure Asset where
  id : String
  type : StickerType
  content : String
  category : Category
  label : String
  anchorType : AnchorType
  defaultScale : ℚ
  defaultOffsetY : Option ℚ := Option.none
  effectItems : Option (List String) := Option.none
deriving Repr, DecidableEq

/-- JavaScript truthiness of an optional number (`undefined` and `0` are falsy),
used by the source in `!s.lifespan`, `asset.defaultOffsetY || 0`, etc. -/
def truthy : Option ℚ → Bool
  | Option.none => false
  | Option.some q => decide (q ≠ 0)

/-- JavaScript `v || dflt` on an optional number. -/
def jsOr (v : Option ℚ) (dflt : ℚ) : ℚ :=
  match v with
  | Option.none => dflt
  | Option.some q => if q = 0 then dflt else q

/-- The string key the apps pass to `getAnchorData` for a given anchor type. -/
def anchorTypeKey : AnchorType → String
  | AnchorType.head => "head"
  | AnchorType.eyes => "eyes"
  | AnchorType.face => "face"
  | AnchorType.body => "body"
  | AnchorType.none => "none"

/-- Translation of `getAnchorData` from src/unnamed/part_000 lines 47-110.  `hypot` stands for
`Math.hypot` and `atan2deg` for `Math.atan2` already converted to degrees; both
are kept abstract (the source computes `faceWidth` and `angleDeg` with them). -/
def getAnchorData (hypot atan2deg : ℚ → ℚ → ℚ)
    (result : FaceLandmarkerResult) (anchorType : String) : Option AnchorData :=
  match result.faceLandmarks with
  | [] => Option.none
  | landmarks :: _ =>
    let noseTip := landmarks 1
    let leftEye := landmarks 33
    let rightEye := landmarks 263
    let topHead := landmarks 10
    let chin := landmarks 152
    let leftCheek := landmarks 234
    let rightCheek := landmarks 454
    let faceWidth := hypot (rightCheek.x - leftCheek.x) (rightCheek.y - leftCheek.y)
    let angleDeg := atan2deg (rightEye.y - leftEye.y) (rightEye.x - leftEye.x)
    if anchorType = "eyes" then
      Option.some ⟨(leftEye.x + rightEye.x) / 2, (leftEye.y + rightEye.y) / 2,
                   faceWidth, angleDeg⟩
    else if anchorType = "head" then
      Option.some ⟨topHead.x, topHead.y, faceWidth, angleDeg⟩
    else if anchorType = "face" then
      Option.some ⟨noseTip.x, noseTip.y, faceWidth, angleDeg⟩
    else if anchorType = "body" then
      Option.some ⟨chin.x, chin.y, faceWidth, angleDeg⟩
    else
      Option.none

/-- Per-sticker body of the variant-B face tracking pass
(src/unnamed/part_004 lines 401-428, identically src/unnamed/part_003 lines
1261-1288): skip the sticker when it is interactively held, unanchored, a drag
is in progress anywhere, or it is a lifespan effect; otherwise mirror the
anchor position into screen space and apply offset / base scale / rotation. -/
def anchorUpdateB (hypot atan2deg : ℚ → ℚ → ℚ) (scaleX scaleY : ℚ)
    (interactingId : Option String) (statusDragging : Bool)
    (faceResult : FaceLandmarkerResult) (sticker : StickerItem) : StickerItem :=
  if interactingId = Option.some sticker.id ∨ sticker.anchorType = AnchorType.none ∨
     statusDragging = true ∨ truthy sticker.lifespan = true then
    sticker
  else
    match getAnchorData hypot atan2deg faceResult (anchorTypeKey sticker.anchorType) with
    | Option.none => sticker
    | Option.some anchorData =>
      let screenX := (1 - anchorData.x) * scaleX
      let screenY := anchorData.y * scaleY
      let screenScale := anchorData.scale * scaleX
      { sticker with
        x := screenX + sticker.anchorOffset.x
        y := screenY + sticker.anchorOffset.y
        scale := screenScale / 100 * sticker.baseScale
        rotation := sticker.baseRotation - anchorData.rotation }

/-- Per-sticker body of the variant-A face anchoring pass
(src/unnamed/part_003 lines 554-581): skip when interactively held or when the
sticker itself is the drag target; otherwise add the stored offset scaled by
`screen dimension * 0.1`, scale against a 128px reference and add rotation. -/
def anchorUpdateA (hypot atan2deg : ℚ → ℚ → ℚ) (scaleX scaleY : ℚ)
    (interactingId : Option String) (statusDragging : Bool) (dragTargetId : Option String)
    (faceResult : FaceLandmarkerResult) (s : StickerItem) : StickerItem :=
  if Option.some s.id = interactingId ∨
     (statusDragging = true ∧ dragTargetId = Option.some s.id) then
    s
  else if s.anchorType ≠ AnchorType.none then
    match getAnchorData hypot atan2deg faceResult (anchorTypeKey s.anchorType) with
    | Option.none => s
    | Option.some data =>
      let rawX := (1 - data.x) * scaleX
      let rawY := data.y * scaleY
      let faceWidthPx := data.scale * scaleX
      let targetScale := faceWidthPx / 128 * s.baseScale
      { s with
        x := rawX + s.anchorOffset.x * scaleX * (1 / 10)
        y := rawY + s.anchorOffset.y * scaleY * (1 / 10)
        scale := targetScale
        rotation := s.baseRotation + data.rotation }
  else s

/-- The drop conversion applied to the dropped sticker by `handleHandDrop`
(src/unnamed/part_004 lines 478-501, identically src/unnamed/part_003 lines
1360-1383): offset = position - mirrored face position, base scale = scale
divided by the face width in pixels normalized by 100, base rotation =
rotation + face rotation. -/
def handleHandDropConv (rectW rectH : ℚ) (faceData : AnchorData)
    (sticker : StickerItem) : StickerItem :=
  let faceX := (1 - faceData.x) * rectW
  let faceY := faceData.y * rectH
  let faceWidthPx := faceData.scale * rectW
  { sticker with
    anchorOffset := ⟨sticker.x - faceX, sticker.y - faceY⟩
    baseScale := sticker.scale / (faceWidthPx / 100)
    baseRotation := sticker.rotation + faceData.rotation }

/-- The `handleHandDrop` mutation acting on the whole store (variant B): if the sticker is
found and a face sample is cached, rewrite its anchor binding, else leave the
store unchanged.  (The `videoRef.current` null-check always passes once the
component is mounted; the bounding rect is the `rectW`/`rectH` parameters.) -/
def handleHandDrop (rectW rectH : ℚ) (faceData : Option AnchorData) (id : String)
    (prev : List StickerItem) : List StickerItem :=
  match prev.find? (fun s => s.id = id), faceData with
  | Option.some sticker, Option.some fd =>
      prev.map (fun s => if s.id = id then handleHandDropConv rectW rectH fd sticker else s)
  | _, _ => prev

/-- The static asset catalog `ASSETS` from src/types.ts.  The SVG payload
strings are abbreviated to short tokens; the code only compares them for
equality (`a.content === currentFace.content`). -/
def ASSETS : List Asset := [
  { id := "f1_rabbit", type := StickerType.svg, content := "SVG:rabbit_face",
    category := Category.faces, label := "Rabbit", anchorType := AnchorType.face,
    defaultScale := 8 / 5, effectItems := Option.some ["carrot", "carrot"] },
  { id := "f2_panda", type := StickerType.svg, content := "SVG:panda_face",
    category := Category.faces, label := "Panda", anchorType := AnchorType.face,
    defaultScale := 3 / 2, effectItems := Option.some ["bamboo1", "bamboo2"] },
  { id := "f3_dog", type := StickerType.svg, content := "SVG:dog_face",
    category := Category.faces, label := "Dog", anchorType := AnchorType.face,
    defaultScale := 8 / 5, effectItems := Option.some ["bone", "meat"] },
  { id := "f4_cat", type := StickerType.svg, content := "SVG:cat_face",
    category := Category.faces, label := "Cat", anchorType := AnchorType.face,
    defaultScale := 3 / 2, effectItems := Option.some ["paw", "fish"] },
  { id := "h1", type := StickerType.svg, content := "SVG:cap_blue",
    category := Category.hats, label := "Cap", anchorType := AnchorType.head,
    defaultScale := 3 / 2, defaultOffsetY := Option.some (-(3 / 5)) },
  { id := "h2", type := StickerType.emoji, content := "crown",
    category := Category.hats, label := "Crown", anchorType := AnchorType.head,
    defaultScale := 4 / 5, defaultOffsetY := Option.some (-(4 / 5)) },
  { id := "h3", type := StickerType.emoji, content := "top_hat",
    category := Category.hats, label := "Top Hat", anchorType := AnchorType.head,
    defaultScale := 1, defaultOffsetY := Option.some (-(4 / 5)) },
  { id := "g1", type := StickerType.svg, content := "SVG:glasses_dark",
    category := Category.glasses, label := "Shades", anchorType := AnchorType.eyes,
    defaultScale := 1 },
  { id := "g2", type := StickerType.svg, content := "SVG:glasses_reading",
    category := Category.glasses, label := "Round", anchorType := AnchorType.eyes,
    defaultScale := 1 },
  { id := "t1", type := StickerType.svg, content := "SVG:tshirt_white",
    category := Category.tops, label := "Tee", anchorType := AnchorType.body,
    defaultScale := 5 / 2, defaultOffsetY := Option.some (6 / 5) },
  { id := "t2", type := StickerType.emoji, content := "dress",
    category := Category.tops, label := "Dress", anchorType := AnchorType.body,
    defaultScale := 11 / 5, defaultOffsetY := Option.some (6 / 5) },
  { id := "ha1", type := StickerType.svg, content := "SVG:hair_long",
    category := Category.hair, label := "Blonde", anchorType := AnchorType.head,
    defaultScale := 9 / 5, defaultOffsetY := Option.some (1 / 5) },
  { id := "ha2", type := StickerType.emoji, content := "curly_hair",
    category := Category.hair, label := "Curly", anchorType := AnchorType.head,
    defaultScale := 7 / 5, defaultOffsetY := Option.some (-(1 / 5)) },
  { id := "a1", type := StickerType.svg, content := "SVG:bowtie",
    category := Category.accessories, label := "Bowtie", anchorType := AnchorType.body,
    defaultScale := 4 / 5, defaultOffsetY := Option.some (3 / 5) },
  { id := "a2", type := StickerType.emoji, content := "scarf",
    category := Category.accessories, label := "Scarf", anchorType := AnchorType.body,
    defaultScale := 3 / 2, defaultOffsetY := Option.some (4 / 5) }]

/-- Translation of `handleSelectAsset` from src/unnamed/part_003 lines 106-128 (variant A):
build the new sticker and, when it is a face, replace every existing face
sticker in the same collection update.  `dateNow` stands for `Date.now()`,
`winW`/`winH` for `window.innerWidth/innerHeight`. -/
def handleSelectAsset (asset : Asset) (dateNow : String) (winW winH : ℚ)
    (prev : List StickerItem) : List StickerItem :=
  let newSticker : StickerItem := {
    id := asset.id ++ "-" ++ dateNow
    type := asset.type
    content := asset.content
    category := asset.category
    x := winW / 2
    y := winH / 2
    scale := asset.defaultScale
    rotation := 0
    anchorType := asset.anchorType
    anchorOffset := ⟨0, jsOr asset.defaultOffsetY 0⟩
    baseScale := asset.defaultScale
    baseRotation := 0 }
  if asset.category = Category.faces then
    prev.filter (fun s => decide (s.category ≠ Category.faces)) ++ [newSticker]
  else
    prev ++ [newSticker]

/-- Translation of `handleAddSticker` from src/unnamed/part_004 lines 503-529 (identically
src/unnamed/part_003 lines 1385-1411): spawn position falls back to the screen
center when absent (or `0`, per JS truthiness), the default vertical offset is
multiplied by 100, and a new face sticker replaces all existing faces. -/
def handleAddSticker (asset : Asset) (newId : String) (spawnX spawnY : Option ℚ)
    (winW winH : ℚ) (prev : List StickerItem) : List StickerItem :=
  let newItem : StickerItem := {
    id := newId
    type := asset.type
    content := asset.content
    category := asset.category
    x := jsOr spawnX (winW / 2)
    y := jsOr spawnY (winH / 2)
    scale := asset.defaultScale
    rotation := 0
    anchorType := asset.anchorType
    anchorOffset := ⟨0, jsOr asset.defaultOffsetY 0 * 100⟩
    baseScale := asset.defaultScale
    baseRotation := 0 }
  if asset.category = Category.faces then
    prev.filter (fun s => decide (s.category ≠ Category.faces)) ++ [newItem]
  else
    prev ++ [newItem]

/-- The next face-asset index used by `cycleAnimalFace`: JS `findIndex`
returns `-1` when the current face's content matches no asset, making
`nextIndex = 0`; otherwise it is `(currentIndex + 1) % faceAssets.length`. -/
def nextFaceIndex (faceAssets : List Asset) (currentFace : Option StickerItem) : Nat :=
  match currentFace with
  | Option.none => 0
  | Option.some face =>
    match faceAssets.findIdx? (fun a => decide (a.content = face.content)) with
    | Option.none => 0
    | Option.some i => (i + 1) % faceAssets.length

/-- Translation of `cycleAnimalFace` from src/unnamed/part_003 lines 130-159 (variant A):
replace the current face sticker by the next face asset; the new sticker's
category is the literal `'faces'`.  If `ASSETS` held no face assets the JS
code would throw and leave the store unchanged (unreachable: it holds four). -/
def cycleAnimalFaceA (dateNow : String) (prev : List StickerItem) : List StickerItem :=
  let faceAssets := ASSETS.filter (fun a => decide (a.category = Category.faces))
  let currentFace := prev.find? (fun s => decide (s.category = Category.faces))
  match faceAssets.get? (nextFaceIndex faceAssets currentFace) with
  | Option.none => prev
  | Option.some nextAsset =>
    let others := prev.filter (fun s => decide (s.category ≠ Category.faces))
    others ++ [{
      id := "face-" ++ dateNow
      type := nextAsset.type
      content := nextAsset.content
      category := Category.faces
      x := 0
      y := 0
      scale := nextAsset.defaultScale
      rotation := 0
      anchorType := nextAsset.anchorType
      anchorOffset := ⟨0, jsOr nextAsset.defaultOffsetY 0⟩
      baseScale := nextAsset.defaultScale
      baseRotation := 0 }]

/-- Translation of `cycleAnimalFace` from src/unnamed/part_004 lines 439-476 (identically
src/unnamed/part_003 lines 1323-1358, variant B): the new sticker's category is
`nextAsset.category` and it spawns at the screen center. -/
def cycleAnimalFaceB (dateNow : String) (winW winH : ℚ)
    (prev : List StickerItem) : List StickerItem :=
  let faceAssets := ASSETS.filter (fun a => decide (a.category = Category.faces))
  let currentFace := prev.find? (fun s => decide (s.category = Category.faces))
  match faceAssets.get? (nextFaceIndex faceAssets currentFace) with
  | Option.none => prev
  | Option.some nextAsset =>
    let others := prev.filter (fun s => decide (s.category ≠ Category.faces))
    others ++ [{
      id := dateNow ++ "auto"
      type := nextAsset.type
      content := nextAsset.content
      category := nextAsset.category
      x := winW / 2
      y := winH / 2
      scale := nextAsset.defaultScale
      rotation := 0
      anchorType := nextAsset.anchorType
      anchorOffset := ⟨0, 0⟩
      baseScale := nextAsset.defaultScale
      baseRotation := 0 }]

/-- Translation of `handleDeleteSticker` (both variants): remove by id. -/
def handleDeleteSticker (id : String) (prev : List StickerItem) : List StickerItem :=
  prev.filter (fun s => decide (s.id ≠ id))

/-- The sticker-store operations of claim C2; `clearAll` is the clear button /
3-finger swipe `setStickers([])`. -/
inductive StoreOp where
  | selectAsset (asset : Asset) (dateNow : String) (winW winH : ℚ)
  | addSticker (asset : Asset) (newId : String) (spawnX spawnY : Option ℚ) (winW winH : ℚ)
  | cycleFaceA (dateNow : String)
  | cycleFaceB (dateNow : String) (winW winH : ℚ)
  | deleteSticker (id : String)
  | clearAll

/-- Apply one store operation. -/
def applyStoreOp (l : List StickerItem) : StoreOp → List StickerItem
  | StoreOp.selectAsset asset dateNow winW winH => handleSelectAsset asset dateNow winW winH l
  | StoreOp.addSticker asset newId sx sy winW winH => handleAddSticker asset newId sx sy winW winH l
  | StoreOp.cycleFaceA dateNow => cycleAnimalFaceA dateNow l
  | StoreOp.cycleFaceB dateNow winW winH => cycleAnimalFaceB dateNow winW winH l
  | StoreOp.deleteSticker id => handleDeleteSticker id l
  | StoreOp.clearAll => []

/-- Apply a sequence of store operations, oldest first. -/
def applyStoreOps (ops : List StoreOp) (l : List StickerItem) : List StickerItem :=
  ops.foldl applyStoreOp l

/-- Number of stickers of category `faces` in a store. -/
def countFaces (l : List StickerItem) : Nat :=
  (l.filter (fun s => decide (s.category = Category.faces))).length

/-- The survival test of the per-frame lifecycle pass (both variants):
stickers without a (truthy) lifespan or creation time always survive; others
survive while `now - createdAt < lifespan`. -/
def stickerAlive (now : ℚ) (s : StickerItem) : Bool :=
  if truthy s.lifespan && truthy s.createdAt then
    decide (now - s.createdAt.getD 0 < s.lifespan.getD 0)
  else true

/-- The fade step of the lifecycle pass: when the remaining time-to-live is
below the fade window, opacity becomes `timeRemaining / fadeDuration`. -/
def stickerFade (now fadeDuration : ℚ) (s : StickerItem) : StickerItem :=
  if truthy s.lifespan && truthy s.createdAt then
    let age := now - s.createdAt.getD 0
    let timeRemaining := s.lifespan.getD 0 - age
    if timeRemaining < fadeDuration then
      { s with opacity := Option.some (timeRemaining / fadeDuration) }
    else s
  else s

/-- The per-frame lifecycle pass (src/unnamed/part_004 lines 118-136,
src/unnamed/part_003 lines 295-314 and 1001-1018): drop dead stickers, then
fade the surviving lifespan-bound ones. -/
def lifecyclePass (now fadeDuration : ℚ) (prev : List StickerItem) : List StickerItem :=
  (prev.filter (stickerAlive now)).map (stickerFade now fadeDuration)

/-- Constants `EFFECT_LIFESPAN` / `EFFECT_FADE_DURATION` in variant A (src/unnamed/part_003
lines 23-24). -/
def EFFECT_LIFESPAN_A : ℚ := 3000
def EFFECT_FADE_DURATION_A : ℚ := 1000

/-- Constants `EFFECT_LIFESPAN` / `EFFECT_FADE_DURATION` in variant B (src/unnamed/part_004
lines 23-24, src/unnamed/part_003 lines 810-811). -/
def EFFECT_LIFESPAN_B : ℚ := 2000
def EFFECT_FADE_DURATION_B : ℚ := 500

/-- Constant `GESTURE_COOLDOWN_MS` in variant A (src/unnamed/part_003 line 19). -/
def GESTURE_COOLDOWN_MS_A : ℚ := 800

/-- Constant `GESTURE_COOLDOWN_MS` in variant B (src/unnamed/part_004 line 19). -/
def GESTURE_COOLDOWN_MS_B : ℚ := 1000

/-- Constant `SWIPE_VELOCITY_THRESHOLD` in variant A (0.015) and B (0.02). -/
def SWIPE_VELOCITY_THRESHOLD_A : ℚ := 3 / 200
def SWIPE_VELOCITY_THRESHOLD_B : ℚ := 1 / 50

/-- The mutable state of the swipe recognizer: `lastGestureTimeRef` (initially
0) and the x-coordinate of `lastHandPosRef` (None when the hand was absent on
the previous frame). -/
structure SwipeState where
  lastGestureTime : ℚ
  lastHandPosX : Option ℚ
deriving Repr, DecidableEq

/-- One frame of the swipe gesture logic (src/unnamed/part_003 lines 363-400,
src/unnamed/part_004 lines 193-216): a swipe action fires iff the previous
hand position is known, the cooldown has elapsed since the last recognized
gesture, the game is not running (variant A; variant B has no game), the
single-frame x-delta of the middle-finger knuckle exceeds the velocity
threshold, and the per-action finger/position condition `actionOk` holds
(3 extended fingers for clear, 4 resp. 5 + over-face for the face cycle).
Firing records `now` in `lastGestureTime`; the hand position is always
recorded. -/
def swipeStep (cooldown velThreshold : ℚ) (now handX : ℚ) (actionOk isPlaying : Bool)
    (st : SwipeState) : Bool × SwipeState :=
  let fired :=
    match st.lastHandPosX with
    | Option.none => false
    | Option.some lastX =>
      decide (now - st.lastGestureTime > cooldown) && !isPlaying &&
        decide (abs (handX - lastX) > velThreshold) && actionOk
  (fired,
   { lastGestureTime := if fired then now else st.lastGestureTime
     lastHandPosX := Option.some handX })

/-- Run the swipe recognizer over a list of frames
`(now, handX, actionOk, isPlaying)` and collect the times of the recognized
swipe events. -/
def swipeRun (cooldown velThreshold : ℚ) :
    List (ℚ × ℚ × Bool × Bool) → SwipeState → List ℚ
  | [], _ => []
  | (now, handX, actionOk, isPlaying) :: rest, st =>
    let r := swipeStep cooldown velThreshold now handX actionOk isPlaying st
    (if r.1 then [now] else []) ++ swipeRun cooldown velThreshold rest r.2

/-- Constant `INTERACTION_RADIUS` (both variants, line 13). -/
def INTERACTION_RADIUS : ℚ := 60

/-- Squared Euclidean distance.  The source compares
`Math.sqrt(dx*dx+dy*dy)` against the radius and the running minimum; since
square root is strictly monotone on nonnegative reals, those comparisons are
equivalent to the squared comparisons used here (which keep ℚ exact). -/
def distSq (x1 y1 x2 y2 : ℚ) : ℚ := (x1 - x2) * (x1 - x2) + (y1 - y2) * (y1 - y2)

/-- The variant-B closest-sticker fold (src/unnamed/part_004 lines 355-369):
walk the list in order keeping `(closestId, minDst)`; a sticker is taken when
it is inside the interaction radius and strictly closer than the running
minimum (`Option.none` plays the role of the initial `Infinity`). -/
def closestScan (cx cy : ℚ) : List StickerItem → Option (String × ℚ) → Option (String × ℚ)
  | [], acc => acc
  | s :: rest, acc =>
    let dsq := distSq s.x s.y cx cy
    let better := decide (dsq < INTERACTION_RADIUS ^ 2) &&
      (match acc with
       | Option.none => true
       | Option.some p => decide (dsq < p.2))
    closestScan cx cy rest (if better then Option.some (s.id, dsq) else acc)

/-- Variant B sticker target resolution: only non-lifespan stickers are
candidates (`stickers.filter(s => !s.lifespan)`), then the closest within the
radius wins. -/
def resolveStickerTargetB (cx cy : ℚ) (stickers : List StickerItem) : Option String :=
  let interactableStickers := stickers.filter (fun s => !truthy s.lifespan)
  (closestScan cx cy interactableStickers Option.none).map Prod.fst

/-- Variant A sticker target scan (src/unnamed/part_003 lines 497-507): iterate
the store from the last element backwards and take the FIRST sticker whose
center is within the interaction radius, with no lifespan filter and no
distance minimization. -/
def resolveStickerTargetA (cx cy : ℚ) (stickers : List StickerItem) : Option String :=
  (stickers.reverse.find?
      (fun s => decide (distSq s.x s.y cx cy < INTERACTION_RADIUS ^ 2))).map StickerItem.id

/-- Kinds of hover/drag targets (`targetType` in both variants). -/
inductive TargetType where
  | sticker | button_asset | button_cat
deriving Repr, DecidableEq

/-- The `id.startsWith(prefix)` test, modelled on the character list (the
byte-level `String.startsWith` is equivalent on well-formed strings). -/
def strStartsWith (s pre : String) : Bool :=
  decide (s.toList.take pre.toList.length = pre.toList)

/-- Variant B hover-target resolution (src/unnamed/part_004 lines 310-369):
`buttonId` is the id of the button element found by
`document.elementFromPoint(...).closest('button')`, when any.  An id with the
`asset-btn-` prefix is an asset button, else a `cat-btn-` prefix a category
button; otherwise the sticker scan runs. -/
def resolveHoverTargetB (buttonId : Option String) (cx cy : ℚ)
    (stickers : List StickerItem) : Option (String × TargetType) :=
  let stickerTarget :=
    (resolveStickerTargetB cx cy stickers).map (fun id => (id, TargetType.sticker))
  match buttonId with
  | Option.some bid =>
    if strStartsWith bid "asset-btn-" then
      Option.some ((bid.drop "asset-btn-".length), TargetType.button_asset)
    else if strStartsWith bid "cat-btn-" then
      Option.some ((bid.drop "cat-btn-".length), TargetType.button_cat)
    else stickerTarget
  | Option.none => stickerTarget

/-- Variant A hover-target resolution (src/unnamed/part_003 lines 480-507):
`btnAsset` / `btnCat` are the (already prefix-stripped) ids of the elements
found by `closest('[id^="asset-btn-"]')` resp. `closest('[id^="cat-btn-"]')`,
asset checked first; the sticker scan only runs when neither matched. -/
def resolveHoverTargetA (btnAsset btnCat : Option String) (cx cy : ℚ)
    (stickers : List StickerItem) : Option (String × TargetType) :=
  match btnAsset with
  | Option.some aid => Option.some (aid, TargetType.button_asset)
  | Option.none =>
    match btnCat with
    | Option.some cid => Option.some (cid, TargetType.button_cat)
    | Option.none =>
      (resolveStickerTargetA cx cy stickers).map (fun id => (id, TargetType.sticker))

/-- Interaction status (both variants). -/
inductive Status where
  | idle | hovering | dragging | dropping_wait | resizing
deriving Repr, DecidableEq

/-- The interaction state record (both variants). -/
structure InteractionState where
  status : Status
  targetId : Option String
  targetType : TargetType
  progress : ℚ
deriving Repr, DecidableEq

/-- The reset value `{ status: 'idle', targetId: null, targetType: 'sticker', progress: 0 }`. -/
def idleInteraction : InteractionState :=
  { status := Status.idle, targetId := Option.none
    targetType := TargetType.sticker, progress := 0 }

/-- The variant-B no-hand branch (src/unnamed/part_004 lines 393-398,
src/unnamed/part_003 lines 1253-1258): when a sticker drag was active the drop
is committed via `handleHandDrop`, then the state is reset to idle. -/
def noHandStepB (rectW rectH : ℚ) (lastFaceData : Option AnchorData)
    (st : InteractionState) (stickers : List StickerItem) :
    InteractionState × List StickerItem :=
  let stickersAfterDrop :=
    match st.targetId with
    | Option.some tid =>
      if st.status = Status.dragging ∧ st.targetType = TargetType.sticker then
        handleHandDrop rectW rectH lastFaceData tid stickers
      else stickers
    | Option.none => stickers
  (idleInteraction, stickersAfterDrop)

/-- The variant-B interaction section of a frame (src/unnamed/part_004 lines
228-398): the hand-present logic (resize/drag/hover, abstracted as
`handLogic`) runs when a hand is detected, otherwise the no-hand branch. -/
def interactionFrameB
    (handLogic : InteractionState → List StickerItem → InteractionState × List StickerItem)
    (handDetected : Bool) (rectW rectH : ℚ) (lastFaceData : Option AnchorData)
    (st : InteractionState) (stickers : List StickerItem) :
    InteractionState × List StickerItem :=
  if handDetected then handLogic st stickers
  else noHandStepB rectW rectH lastFaceData st stickers

/-- The variant-A interaction section of a frame (src/unnamed/part_003 lines
448-541): the whole block is guarded by `if (handDetected && !isPlaying)` with
NO else branch — on a no-hand frame nothing runs and the interaction state is
left as it was. -/
def interactionFrameA
    (handLogic : InteractionState → List StickerItem → InteractionState × List StickerItem)
    (handDetected isPlaying : Bool)
    (st : InteractionState) (stickers : List StickerItem) :
    InteractionState × List StickerItem :=
  if handDetected && !isPlaying then handLogic st stickers else (st, stickers)

/-- Game state: score, live coins and whether the game mode is active. -/
structure GameState where
  score : ℚ
  coins : List CoinItem
  isPlaying : Bool
deriving Repr, DecidableEq

/-- The variant-A game start button (src/unnamed/part_003 lines 675-686, the
`!isPlaying` branch of its onClick): reset score, clear coins, keep only face
stickers, set playing. -/
def startGameA (stickers : List StickerItem) :
    GameState × List StickerItem :=
  ({ score := 0, coins := [], isPlaying := true },
   stickers.filter (fun s => decide (s.category = Category.faces)))

/-- Translation of `handleStartGame` from src/unnamed/part_003 lines 1300-1311 (variant B):
refuse to start when no face sticker exists (alert, nothing changes);
otherwise reset score, clear coins, set playing and hide the win modal.
The sticker store is returned unchanged in both branches — `handleStartGame`
never calls `setStickers`. -/
def handleStartGame (stickers : List StickerItem) (g : GameState) (showWinModal : Bool) :
    GameState × List StickerItem × Bool :=
  let hasFace := stickers.any (fun s => decide (s.category = Category.faces))
  if hasFace then
    ({ score := 0, coins := [], isPlaying := true }, stickers, false)
  else
    (g, stickers, showWinModal)

/-! ### Concrete fixtures used by witnesses and counterexamples -/

/-- A landmark set placing every landmark at the origin. -/
def zeroLandmarks : Nat → Point := fun _ => ⟨0, 0⟩

/-- A face result whose single landmark set is `zeroLandmarks`; its anchor
samples are `⟨0, 0, hypot 0 0, atan2deg 0 0⟩`. -/
def zeroFaceResult : FaceLandmarkerResult := ⟨[zeroLandmarks]⟩

/-- A landmark set placing every landmark at `(1/4, 1/2)`. -/
def demoLandmarks : Nat → Point := fun _ => ⟨1 / 4, 1 / 2⟩

/-- A face result whose single landmark set is `demoLandmarks`. -/
def demoFaceResult : FaceLandmarkerResult := ⟨[demoLandmarks]⟩

/-- A face-anchored sticker with a unit x-offset. -/
def demoAnchoredSticker : StickerItem :=
  { id := "st-1", type := StickerType.emoji, content := "crown"
    category := Category.hats, x := 0, y := 0, scale := 1, rotation := 0
    anchorType := AnchorType.face, anchorOffset := ⟨1, 0⟩
    baseScale := 1, baseRotation := 0 }

/-- A face-anchored sticker positioned as if just dragged to `(600, 300)`. -/
def demoDropSticker : StickerItem :=
  { id := "st-2", type := StickerType.svg, content := "SVG:glasses_dark"
    category := Category.glasses, x := 600, y := 300, scale := 2, rotation := 45
    anchorType := AnchorType.face, anchorOffset := ⟨0, 0⟩
    baseScale := 1, baseRotation := 0 }

/-- A face sticker (category `faces`). -/
def demoFaceSticker : StickerItem :=
  { id := "face-1", type := StickerType.svg, content := "SVG:cat_face"
    category := Category.faces, x := 0, y := 0, scale := 3 / 2, rotation := 0
    anchorType := AnchorType.face, anchorOffset := ⟨0, 0⟩
    baseScale := 3 / 2, baseRotation := 0 }

/-- A hat sticker (category `hats`, not `faces`). -/
def demoHatSticker : StickerItem :=
  { id := "hat-1", type := StickerType.emoji, content := "crown"
    category := Category.hats, x := 100, y := 100, scale := 4 / 5, rotation := 0
    anchorType := AnchorType.head, anchorOffset := ⟨0, -80⟩
    baseScale := 4 / 5, baseRotation := 0 }

/-- A permanent sticker at the origin. -/
def demoStickerNear : StickerItem :=
  { id := "near", type := StickerType.emoji, content := "scarf"
    category := Category.accessories, x := 0, y := 0, scale := 1, rotation := 0
    anchorType := AnchorType.none, anchorOffset := ⟨0, 0⟩
    baseScale := 1, baseRotation := 0 }

/-- A permanent sticker 50px away from the origin (later in the store order). -/
def demoStickerFar : StickerItem :=
  { id := "far", type := StickerType.emoji, content := "dress"
    category := Category.tops, x := 50, y := 0, scale := 1, rotation := 0
    anchorType := AnchorType.none, anchorOffset := ⟨0, 0⟩
    baseScale := 1, baseRotation := 0 }

/-- A transient effect sticker (truthy lifespan) sitting at the origin. -/
def demoEffectSticker : StickerItem :=
  { id := "fx-1", type := StickerType.emoji, content := "carrot"
    category := Category.accessories, x := 0, y := 0, scale := 2, rotation := 0
    opacity := Option.some 1, anchorType := AnchorType.none, anchorOffset := ⟨0, 0⟩
    baseScale := 2, baseRotation := 0
    createdAt := Option.some 100, lifespan := Option.some EFFECT_LIFESPAN_B }

/-- A face asset like the panda entry of the catalog. -/
def demoPandaAsset : Asset :=
  { id := "f2_panda", type := StickerType.svg, content := "SVG:panda_face"
    category := Category.faces, label := "Panda", anchorType := AnchorType.face
    defaultScale := 2 }

/-- A face asset like the rabbit entry of the catalog. -/
def demoRabbitAsset : Asset :=
  { id := "f1_rabbit", type := StickerType.svg, content := "SVG:rabbit_face"
    category := Category.faces, label := "Rabbit", anchorType := AnchorType.face
    defaultScale := 2 }

/-- A non-face asset like the crown entry of the catalog. -/
def demoCrownAsset : Asset :=
  { id := "h2", type := StickerType.emoji, content := "crown"
    category := Category.hats, label := "Crown", anchorType := AnchorType.head
    defaultScale := 1 }

/-- An interaction state in the middle of dragging sticker `st-1`. -/
def demoDraggingState : InteractionState :=
  { status := Status.dragging, targetId := Option.some "st-1"
    targetType := TargetType.sticker, progress := 1 / 2 }

/-- A fully-qualifying swipe signal: frames every 100 ms from t=900 to t=3300
(three 800 ms cooldown windows after the first recognized swipe), hand x
alternating between 0 and 1 (so every single-frame delta exceeds the velocity
threshold), finger condition satisfied, game inactive. -/
def demoSwipeFrames : List (ℚ × ℚ × Bool × Bool) :=
  [(900, 0, true, false), (1000, 1, true, false), (1100, 0, true, false),
   (1200, 1, true, false), (1300, 0, true, false), (1400, 1, true, false),
   (1500, 0, true, false), (1600, 1, true, false), (1700, 0, true, false),
   (1800, 1, true, false), (1900, 0, true, false), (2000, 1, true, false),
   (2100, 0, true, false), (2200, 1, true, false), (2300, 0, true, false),
   (2400, 1, true, false), (2500, 0, true, false), (2600, 1, true, false),
   (2700, 0, true, false), (2800, 1, true, false), (2900, 0, true, false),
   (3000, 1, true, false), (3100, 0, true, false), (3200, 1, true, false),
   (3300, 0, true, false)]

/-! ### Theorems -/

/-- C9: for every face-landmark result, `getAnchorData` returns no data
(`null`, never a thrown error) when the anchor-type selector is outside
{head, eyes, face, body}, and likewise when the result contains no face
landmarks. -/
theorem C9_getAnchorData_no_data
    (hypot atan2deg : ℚ → ℚ → ℚ) (result : FaceLandmarkerResult) (key : String)
    (hkey : key ∉ (["head", "eyes", "face", "body"] : List String)) :
    getAnchorData hypot atan2deg result key = Option.none ∧
    (result.faceLandmarks = [] →
      ∀ key2 : String, getAnchorData hypot atan2deg result key2 = Option.none) := by
  have hk1 : ¬(key = "eyes") := fun h => hkey (by simp [h])
  have hk2 : ¬(key = "head") := fun h => hkey (by simp [h])
  have hk3 : ¬(key = "face") := fun h => hkey (by simp [h])
  have hk4 : ¬(key = "body") := fun h => hkey (by simp [h])
  obtain ⟨ls⟩ := result
  constructor
  · cases ls with
    | nil => rfl
    | cons lm rest => simp [getAnchorData, hk1, hk2, hk3, hk4]
  · intro h key2
    simp only at h
    subst h
    rfl

/-- C9 witness: a concrete unknown selector and a concrete empty result both
yield no data. -/
theorem C9_getAnchorData_no_data_witness :
    getAnchorData (fun _ _ => 0) (fun _ _ => 0) demoFaceResult "nose" = Option.none ∧
    getAnchorData (fun _ _ => 0) (fun _ _ => 0) ⟨[]⟩ "head" = Option.none :=
  ⟨(C9_getAnchorData_no_data (fun _ _ => 0) (fun _ _ => 0) demoFaceResult "nose"
      (by decide)).1,
   (C9_getAnchorData_no_data (fun _ _ => 0) (fun _ _ => 0) ⟨[]⟩ "nose"
      (by decide)).2 rfl "head"⟩

/-- C8: the per-frame lifecycle pass removes a lifespan-bound sticker once its
age reaches its lifespan, and while it survives with time-to-live below the
fade window its opacity is `timeRemaining / fadeDuration`; concretely, the
effect sticker created at t0 = 100 with lifespan 2000 ms and fade window
500 ms has opacity 2/5 at t = t0 + 1800 and is removed at t = t0 + 2000. -/
theorem C8_lifecycle_fade_and_expiry (now fade lf ca : ℚ) (s : StickerItem)
    (hlf : s.lifespan = Option.some lf) (hca : s.createdAt = Option.some ca)
    (hlf0 : lf ≠ 0) (hca0 : ca ≠ 0) :
    (lf ≤ now - ca → lifecyclePass now fade [s] = []) ∧
    (now - ca < lf → lf - (now - ca) < fade →
      lifecyclePass now fade [s] =
        [{ s with opacity := Option.some ((lf - (now - ca)) / fade) }]) ∧
    lifecyclePass 1900 EFFECT_FADE_DURATION_B [demoEffectSticker] =
      [{ demoEffectSticker with opacity := Option.some (2 / 5) }] ∧
    lifecyclePass 2100 EFFECT_FADE_DURATION_B [demoEffectSticker] = [] := by
  refine ⟨?_, ?_,
    by norm_num [lifecyclePass, stickerAlive, stickerFade, truthy, demoEffectSticker,
                 EFFECT_LIFESPAN_B, EFFECT_FADE_DURATION_B],
    by norm_num [lifecyclePass, stickerAlive, stickerFade, truthy, demoEffectSticker,
                 EFFECT_LIFESPAN_B, EFFECT_FADE_DURATION_B]⟩
  · intro h
    have halive : stickerAlive now s = false := by
      simp [stickerAlive, truthy, hlf, hca, hlf0, hca0]
      linarith
    simp [lifecyclePass, halive]
  · intro h1 h2
    have halive : stickerAlive now s = true := by
      simp [stickerAlive, truthy, hlf, hca, hlf0, hca0]
      linarith
    simp [lifecyclePass, halive, stickerFade, truthy, hlf, hca, hlf0, hca0, h2]

/-- C8 witness: the generic parts of the lifecycle theorem evaluated on the
concrete effect sticker. -/
theorem C8_lifecycle_fade_and_expiry_witness :
    lifecyclePass 2100 500 [demoEffectSticker] = [] ∧
    lifecyclePass 1900 500 [demoEffectSticker] =
      [{ demoEffectSticker with opacity := Option.some ((2000 - (1900 - 100)) / 500) }] :=
  ⟨(C8_lifecycle_fade_and_expiry 2100 500 2000 100 demoEffectSticker (by decide) (by decide)
      (by norm_num) (by norm_num)).1 (by norm_num),
   (C8_lifecycle_fade_and_expiry 1900 500 2000 100 demoEffectSticker (by decide) (by decide)
      (by norm_num) (by norm_num)).2.1 (by norm_num) (by norm_num)⟩

/-- C7 counterexample: the variant-B `handleStartGame` (part_003 lines
1300-1311) activates the game with score 0 and no coins but leaves the
non-face hat sticker in the store, contradicting the claim that every
non-face sticker is removed on activation. -/
theorem C7_counterexample :
    (handleStartGame [demoFaceSticker, demoHatSticker] ⟨7, [⟨"c", 0, 0, 1, 10, false⟩], false⟩
        true).1.isPlaying = true ∧
    (handleStartGame [demoFaceSticker, demoHatSticker] ⟨7, [⟨"c", 0, 0, 1, 10, false⟩], false⟩
        true).2.1 = [demoFaceSticker, demoHatSticker] ∧
    demoHatSticker.category ≠ Category.faces :=
  ⟨rfl, rfl, by decide⟩

/-- C7 (amended): the variant-A game-start button resets the score to 0,
clears the coins and strips every non-face sticker; the variant-B
`handleStartGame` also resets the score to 0 and clears the coins (when a face
sticker is present, otherwise it refuses to start), but leaves the sticker
store unchanged. -/
theorem C7_game_start (stickers : List StickerItem) (g : GameState) (w : Bool)
    (hface : ∃ s ∈ stickers, s.category = Category.faces) :
    ((startGameA stickers).1.score = 0 ∧ (startGameA stickers).1.coins = [] ∧
     (startGameA stickers).1.isPlaying = true ∧
     (∀ s ∈ (startGameA stickers).2, s.category = Category.faces) ∧
     (∀ s ∈ stickers, s.category = Category.faces → s ∈ (startGameA stickers).2)) ∧
    ((handleStartGame stickers g w).1.score = 0 ∧
     (handleStartGame stickers g w).1.coins = [] ∧
     (handleStartGame stickers g w).1.isPlaying = true ∧
     (handleStartGame stickers g w).2.1 = stickers) := by
  constructor
  · refine ⟨rfl, rfl, rfl, ?_, ?_⟩
    · intro s hs
      have := List.of_mem_filter hs
      simpa using this
    · intro s hs hcat
      exact List.mem_filter.mpr ⟨hs, by simpa using hcat⟩
  · obtain ⟨s0, hs0, hcat0⟩ := hface
    have hany : stickers.any (fun s => decide (s.category = Category.faces)) = true := by
      rw [List.any_eq_true]
      exact ⟨s0, hs0, by simpa using hcat0⟩
    simp [handleStartGame, hany]

/-- C7 witness: the amended game-start behavior on a concrete store holding a
face sticker and a hat sticker. -/
theorem C7_game_start_witness :
    ((startGameA [demoFaceSticker, demoHatSticker]).1.score = 0 ∧
     (startGameA [demoFaceSticker, demoHatSticker]).1.coins = [] ∧
     (startGameA [demoFaceSticker, demoHatSticker]).1.isPlaying = true ∧
     (∀ s ∈ (startGameA [demoFaceSticker, demoHatSticker]).2,
        s.category = Category.faces) ∧
     (∀ s ∈ [demoFaceSticker, demoHatSticker], s.category = Category.faces →
        s ∈ (startGameA [demoFaceSticker, demoHatSticker]).2)) ∧
    ((handleStartGame [demoFaceSticker, demoHatSticker] ⟨7, [], false⟩ true).1.score = 0 ∧
     (handleStartGame [demoFaceSticker, demoHatSticker] ⟨7, [], false⟩ true).1.coins = [] ∧
     (handleStartGame [demoFaceSticker, demoHatSticker] ⟨7, [], false⟩ true).1.isPlaying = true ∧
     (handleStartGame [demoFaceSticker, demoHatSticker] ⟨7, [], false⟩ true).2.1 =
        [demoFaceSticker, demoHatSticker]) :=
  C7_game_start [demoFaceSticker, demoHatSticker] ⟨7, [], false⟩ true
    ⟨demoFaceSticker, List.mem_cons_self _ _, rfl⟩

/-- C1 counterexample: in the variant-A face anchoring pass (part_003 lines
554-581) the stored offset is multiplied by `screen dimension * 0.1` before
being added — with anchor sample x = 0, screen width 1000 and stored x-offset
1, the sticker lands at x = 1100 and not at the mirrored anchor position plus
its offset (1001). -/
theorem C1_counterexample :
    getAnchorData (fun _ _ => 0) (fun _ _ => 0) zeroFaceResult "face" =
      Option.some ⟨0, 0, 0, 0⟩ ∧
    (anchorUpdateA (fun _ _ => 0) (fun _ _ => 0) 1000 1000 Option.none false Option.none
        zeroFaceResult demoAnchoredSticker).x = 1100 ∧
    (1100 : ℚ) ≠ (1 - 0) * 1000 + demoAnchoredSticker.anchorOffset.x := by
  refine ⟨by decide, ?_, by norm_num [demoAnchoredSticker]⟩
  norm_num [anchorUpdateA, getAnchorData, zeroFaceResult, zeroLandmarks,
            demoAnchoredSticker, anchorTypeKey]
  decide

/-- C1 (amended): when the anchor resolver yields a sample for the sticker's
anchor type, the variant-B face-tracking pass places a non-held, anchored,
non-lifespan sticker exactly at the anchor's mirrored screen position plus its
stored offset, provided no drag is in progress; the variant-A pass instead
adds the stored offset scaled by 0.1 times the screen dimension.  Both passes
are pure functions of the anchor sample and the sticker state, hence
deterministic. -/
theorem C1_anchor_position (hypot atan2deg : ℚ → ℚ → ℚ) (scaleX scaleY : ℚ)
    (interactingId dragTargetId : Option String) (fr : FaceLandmarkerResult)
    (s : StickerItem) (d : AnchorData)
    (hheld : interactingId ≠ Option.some s.id)
    (hanchor : s.anchorType ≠ AnchorType.none)
    (hlife : truthy s.lifespan = false)
    (hdata : getAnchorData hypot atan2deg fr (anchorTypeKey s.anchorType) = Option.some d) :
    (anchorUpdateB hypot atan2deg scaleX scaleY interactingId false fr s).x =
        (1 - d.x) * scaleX + s.anchorOffset.x ∧
    (anchorUpdateB hypot atan2deg scaleX scaleY interactingId false fr s).y =
        d.y * scaleY + s.anchorOffset.y ∧
    (anchorUpdateA hypot atan2deg scaleX scaleY interactingId false dragTargetId fr s).x =
        (1 - d.x) * scaleX + s.anchorOffset.x * scaleX * (1 / 10) ∧
    (anchorUpdateA hypot atan2deg scaleX scaleY interactingId false dragTargetId fr s).y =
        d.y * scaleY + s.anchorOffset.y * scaleY * (1 / 10) := by
  refine ⟨?_, ?_, ?_, ?_⟩ <;>
    simp [anchorUpdateB, anchorUpdateA, hdata, hheld, Ne.symm hheld, hlife, hanchor]

/-- C1 witness: the amended anchoring equations evaluated on a concrete
anchored sticker and the all-zero anchor sample. -/
theorem C1_anchor_position_witness :
    (anchorUpdateB (fun _ _ => 0) (fun _ _ => 0) 1000 500 Option.none false
        zeroFaceResult demoAnchoredSticker).x =
      (1 - (0 : ℚ)) * 1000 + demoAnchoredSticker.anchorOffset.x ∧
    (anchorUpdateB (fun _ _ => 0) (fun _ _ => 0) 1000 500 Option.none false
        zeroFaceResult demoAnchoredSticker).y =
      (0 : ℚ) * 500 + demoAnchoredSticker.anchorOffset.y ∧
    (anchorUpdateA (fun _ _ => 0) (fun _ _ => 0) 1000 500 Option.none false Option.none
        zeroFaceResult demoAnchoredSticker).x =
      (1 - (0 : ℚ)) * 1000 + demoAnchoredSticker.anchorOffset.x * 1000 * (1 / 10) ∧
    (anchorUpdateA (fun _ _ => 0) (fun _ _ => 0) 1000 500 Option.none false Option.none
        zeroFaceResult demoAnchoredSticker).y =
      (0 : ℚ) * 500 + demoAnchoredSticker.anchorOffset.y * 500 * (1 / 10) :=
  C1_anchor_position (fun _ _ => 0) (fun _ _ => 0) 1000 500 Option.none Option.none
    zeroFaceResult demoAnchoredSticker ⟨0, 0, 0, 0⟩
    (by decide) (by decide) (by decide) (by decide)

/-- Appending stores adds face counts. -/
theorem countFaces_append (l l' : List StickerItem) :
    countFaces (l ++ l') = countFaces l + countFaces l' := by
  simp [countFaces, List.filter_append]

/-- A store from which all faces were filtered out has no faces. -/
theorem countFaces_filter_nonfaces (l : List StickerItem) :
    countFaces (l.filter (fun s => decide (s.category ≠ Category.faces))) = 0 := by
  induction l with
  | nil => rfl
  | cons s rest ih =>
    by_cases h : s.category = Category.faces
    · rwa [List.filter_cons_of_neg (by simp [h])]
    · rw [List.filter_cons_of_pos (by simp [h])]
      unfold countFaces at ih ⊢
      rwa [List.filter_cons_of_neg (by simp [h])]

/-- Filtering never increases the face count. -/
theorem countFaces_filter_le (p : StickerItem → Bool) (l : List StickerItem) :
    countFaces (l.filter p) ≤ countFaces l := by
  induction l with
  | nil => simp [countFaces]
  | cons s rest ih =>
    by_cases hp : p s <;> by_cases hc : s.category = Category.faces <;>
      simp [countFaces, List.filter_cons, hp, hc] at ih ⊢ <;> omega

/-- The face count of a one-sticker store. -/
theorem countFaces_singleton (s : StickerItem) :
    countFaces [s] = if s.category = Category.faces then 1 else 0 := by
  by_cases hc : s.category = Category.faces <;> simp [countFaces, hc]

/-- A face asset found in the face filter of the catalog has category faces. -/
theorem faceAssets_get_category (n : Nat) (a : Asset)
    (h : (ASSETS.filter (fun a => decide (a.category = Category.faces))).get? n =
      Option.some a) : a.category = Category.faces := by
  have hmem : a ∈ ASSETS.filter (fun a => decide (a.category = Category.faces)) :=
    List.get?_mem h
  have := (List.mem_filter.mp hmem).2
  simpa using this

/-- Every store operation preserves the at-most-one-face invariant. -/
theorem countFaces_le_one_step (l : List StickerItem) (op : StoreOp)
    (h : countFaces l ≤ 1) : countFaces (applyStoreOp l op) ≤ 1 := by
  cases op with
  | selectAsset asset dateNow winW winH =>
    show countFaces (handleSelectAsset asset dateNow winW winH l) ≤ 1
    simp only [handleSelectAsset]
    by_cases hc : asset.category = Category.faces
    · rw [if_pos hc, countFaces_append, countFaces_filter_nonfaces,
          countFaces_singleton]
      simp [hc]
    · rw [if_neg hc, countFaces_append, countFaces_singleton, if_neg hc]
      omega
  | addSticker asset newId sx sy winW winH =>
    show countFaces (handleAddSticker asset newId sx sy winW winH l) ≤ 1
    simp only [handleAddSticker]
    by_cases hc : asset.category = Category.faces
    · rw [if_pos hc, countFaces_append, countFaces_filter_nonfaces,
          countFaces_singleton]
      simp [hc]
    · rw [if_neg hc, countFaces_append, countFaces_singleton, if_neg hc]
      omega
  | cycleFaceA dateNow =>
    show countFaces (cycleAnimalFaceA dateNow l) ≤ 1
    simp only [cycleAnimalFaceA]
    split
    · exact h
    · rw [countFaces_append, countFaces_filter_nonfaces, countFaces_singleton]
      simp
  | cycleFaceB dateNow winW winH =>
    show countFaces (cycleAnimalFaceB dateNow winW winH l) ≤ 1
    simp only [cycleAnimalFaceB]
    split
    · exact h
    · rename_i nextAsset hget
      have hcat := faceAssets_get_category _ _ hget
      rw [countFaces_append, countFaces_filter_nonfaces, countFaces_singleton]
      simp [hcat]
  | deleteSticker id =>
    exact le_trans (countFaces_filter_le _ l) h
  | clearAll =>
    simp [applyStoreOp, countFaces]

/-- C2: after any sequence of sticker-store operations starting from the empty
store, at most one sticker of category faces exists; moreover adding a face
asset (via either add path) leaves exactly one face sticker, since both paths
filter out every existing face in the same collection replacement. -/
theorem C2_at_most_one_face (ops : List StoreOp) (l : List StickerItem)
    (asset : Asset) (dateNow newId : String) (sx sy : Option ℚ) (winW winH : ℚ)
    (hface : asset.category = Category.faces) :
    countFaces (applyStoreOps ops []) ≤ 1 ∧
    countFaces (handleSelectAsset asset dateNow winW winH l) = 1 ∧
    countFaces (handleAddSticker asset newId sx sy winW winH l) = 1 := by
  refine ⟨?_, ?_, ?_⟩
  · suffices hstep : ∀ start : List StickerItem, countFaces start ≤ 1 →
        countFaces (applyStoreOps ops start) ≤ 1 by
      exact hstep [] (by simp [countFaces])
    induction ops with
    | nil =>
      intro start hs
      simpa [applyStoreOps] using hs
    | cons op rest ih =>
      intro start hs
      have hone := countFaces_le_one_step start op hs
      simpa [applyStoreOps] using ih (applyStoreOp start op) hone
  · simp only [handleSelectAsset]
    rw [if_pos hface, countFaces_append, countFaces_filter_nonfaces,
        countFaces_singleton]
    simp [hface]
  · simp only [handleAddSticker]
    rw [if_pos hface, countFaces_append, countFaces_filter_nonfaces,
        countFaces_singleton]
    simp [hface]

/-- C2 witness: a concrete operation sequence (add rabbit face, add hat, cycle
the face, add panda face) and the two add paths on a store already holding a
face. -/
theorem C2_at_most_one_face_witness :
    countFaces (applyStoreOps
      [StoreOp.selectAsset demoRabbitAsset "t1" 1000 800,
       StoreOp.addSticker demoCrownAsset "id2" Option.none Option.none 1000 800,
       StoreOp.cycleFaceA "t3",
       StoreOp.selectAsset demoPandaAsset "t4" 1000 800] []) ≤ 1 ∧
    countFaces (handleSelectAsset demoPandaAsset "t5" 1000 800
        [demoFaceSticker, demoHatSticker]) = 1 ∧
    countFaces (handleAddSticker demoPandaAsset "id6" Option.none Option.none
        1000 800 [demoFaceSticker, demoHatSticker]) = 1 :=
  C2_at_most_one_face _ [demoFaceSticker, demoHatSticker]
    demoPandaAsset "t5" "id6" Option.none Option.none 1000 800 rfl

/-- C3: dropping a dragged sticker while a face-anchor sample is cached and
then re-applying the variant-B face-tracking pass with that same sample leaves
the sticker's position, scale and rotation unchanged: the drop conversion
(offset = position - mirrored anchor position, base scale = scale divided by
the anchor scale normalized to the 100-unit reference, base rotation =
rotation + anchor rotation) is a section of the anchoring update. -/
theorem C3_drop_round_trip (hypot atan2deg : ℚ → ℚ → ℚ)
    (fr : FaceLandmarkerResult) (rectW rectH : ℚ) (s : StickerItem) (fd : AnchorData)
    (hdata : getAnchorData hypot atan2deg fr (anchorTypeKey s.anchorType) =
      Option.some fd)
    (hscale : fd.scale * rectW ≠ 0)
    (hanchor : s.anchorType ≠ AnchorType.none)
    (hlife : truthy s.lifespan = false) :
    (anchorUpdateB hypot atan2deg rectW rectH Option.none false fr
        (handleHandDropConv rectW rectH fd s)).x = s.x ∧
    (anchorUpdateB hypot atan2deg rectW rectH Option.none false fr
        (handleHandDropConv rectW rectH fd s)).y = s.y ∧
    (anchorUpdateB hypot atan2deg rectW rectH Option.none false fr
        (handleHandDropConv rectW rectH fd s)).scale = s.scale ∧
    (anchorUpdateB hypot atan2deg rectW rectH Option.none false fr
        (handleHandDropConv rectW rectH fd s)).rotation = s.rotation := by
  have hr : rectW ≠ 0 := right_ne_zero_of_mul hscale
  have hf : fd.scale ≠ 0 := left_ne_zero_of_mul hscale
  refine ⟨?_, ?_, ?_, ?_⟩ <;>
    simp [anchorUpdateB, handleHandDropConv, hdata, hlife, hanchor] <;>
    field_simp <;> ring

/-- C3 witness: the round trip on a concrete dragged sticker at (600, 300)
with a concrete anchor sample of scale 1/2 on a 1000x500 surface. -/
theorem C3_drop_round_trip_witness :
    (anchorUpdateB (fun _ _ => 1 / 2) (fun _ _ => 30) 1000 500 Option.none false
        demoFaceResult (handleHandDropConv 1000 500 ⟨1 / 4, 1 / 2, 1 / 2, 30⟩
          demoDropSticker)).x = demoDropSticker.x ∧
    (anchorUpdateB (fun _ _ => 1 / 2) (fun _ _ => 30) 1000 500 Option.none false
        demoFaceResult (handleHandDropConv 1000 500 ⟨1 / 4, 1 / 2, 1 / 2, 30⟩
          demoDropSticker)).y = demoDropSticker.y ∧
    (anchorUpdateB (fun _ _ => 1 / 2) (fun _ _ => 30) 1000 500 Option.none false
        demoFaceResult (handleHandDropConv 1000 500 ⟨1 / 4, 1 / 2, 1 / 2, 30⟩
          demoDropSticker)).scale = demoDropSticker.scale ∧
    (anchorUpdateB (fun _ _ => 1 / 2) (fun _ _ => 30) 1000 500 Option.none false
        demoFaceResult (handleHandDropConv 1000 500 ⟨1 / 4, 1 / 2, 1 / 2, 30⟩
          demoDropSticker)).rotation = demoDropSticker.rotation :=
  C3_drop_round_trip (fun _ _ => 1 / 2) (fun _ _ => 30) demoFaceResult 1000 500
    demoDropSticker ⟨1 / 4, 1 / 2, 1 / 2, 30⟩ rfl (by norm_num)
    (by decide) (by decide)

/-- The closest-sticker fold returns its accumulator or an in-radius sticker
of the list together with its squared distance. -/
theorem closestScan_sound (cx cy : ℚ) :
    ∀ (l : List StickerItem) (acc : Option (String × ℚ)) (p : String × ℚ),
      closestScan cx cy l acc = Option.some p →
      acc = Option.some p ∨
        ∃ s ∈ l, s.id = p.1 ∧ distSq s.x s.y cx cy = p.2 ∧
          p.2 < INTERACTION_RADIUS ^ 2
  | [], _, p, h => Or.inl h
  | s :: rest, acc, p, h => by
    simp only [closestScan] at h
    rcases closestScan_sound cx cy rest _ p h with hacc | ⟨t, ht, h1, h2, h3⟩
    · split at hacc
      · rename_i hb
        obtain rfl : (s.id, distSq s.x s.y cx cy) = p := Option.some.inj hacc
        refine Or.inr ⟨s, List.mem_cons_self s rest, rfl, rfl, ?_⟩
        simp only [Bool.and_eq_true, decide_eq_true_eq] at hb
        exact hb.1
      · exact Or.inl hacc
    · exact Or.inr ⟨t, List.mem_cons_of_mem s ht, h1, h2, h3⟩

/-- Starting the fold from a known minimum, the result's distance never
exceeds that minimum. -/
theorem closestScan_le (cx cy : ℚ) :
    ∀ (l : List StickerItem) (i : String) (m : ℚ) (p : String × ℚ),
      closestScan cx cy l (Option.some (i, m)) = Option.some p → p.2 ≤ m
  | [], i, m, p, h => by
    obtain rfl : (i, m) = p := Option.some.inj h
    exact le_refl _
  | s :: rest, i, m, p, h => by
    simp only [closestScan] at h
    split at h
    · rename_i hb
      simp only [Bool.and_eq_true, decide_eq_true_eq] at hb
      exact le_of_lt (lt_of_le_of_lt (closestScan_le cx cy rest s.id _ p h) hb.2)
    · exact closestScan_le cx cy rest i m p h

/-- The fold's result is at least as close as every in-radius sticker of the
list. -/
theorem closestScan_min (cx cy : ℚ) :
    ∀ (l : List StickerItem) (acc : Option (String × ℚ)) (p : String × ℚ),
      closestScan cx cy l acc = Option.some p →
      ∀ t ∈ l, distSq t.x t.y cx cy < INTERACTION_RADIUS ^ 2 →
        p.2 ≤ distSq t.x t.y cx cy
  | [], _, p, _, t, ht, _ => absurd ht (List.not_mem_nil t)
  | s :: rest, acc, p, h, t, ht, hrad => by
    rcases List.mem_cons.mp ht with rfl | hmem
    · simp only [closestScan] at h
      rcases acc with _ | ⟨i, m⟩
      · rw [if_pos (by simp [hrad])] at h
        exact closestScan_le cx cy rest _ _ p h
      · by_cases hdm : distSq t.x t.y cx cy < m
        · rw [if_pos (by simp [hrad, hdm])] at h
          exact closestScan_le cx cy rest _ _ p h
        · rw [if_neg (by simp [hdm])] at h
          exact le_trans (closestScan_le cx cy rest _ _ p h) (not_lt.mp hdm)
    · simp only [closestScan] at h
      exact closestScan_min cx cy rest _ p h t hmem hrad

/-- Once the accumulator holds a candidate the fold returns a candidate. -/
theorem closestScan_isSome_of_acc (cx cy : ℚ) :
    ∀ (l : List StickerItem) (i : String) (m : ℚ),
      (closestScan cx cy l (Option.some (i, m))).isSome = true
  | [], _, _ => rfl
  | s :: rest, i, m => by
    simp only [closestScan]
    split
    · exact closestScan_isSome_of_acc cx cy rest _ _
    · exact closestScan_isSome_of_acc cx cy rest i m

/-- An in-radius sticker in the list forces the fold to return a candidate. -/
theorem closestScan_isSome (cx cy : ℚ) :
    ∀ (l : List StickerItem) (acc : Option (String × ℚ)) (t : StickerItem),
      t ∈ l → distSq t.x t.y cx cy < INTERACTION_RADIUS ^ 2 →
      (closestScan cx cy l acc).isSome = true
  | [], _, t, ht, _ => absurd ht (List.not_mem_nil t)
  | s :: rest, acc, t, ht, hrad => by
    rcases List.mem_cons.mp ht with rfl | hmem
    · simp only [closestScan]
      rcases acc with _ | ⟨i, m⟩
      · rw [if_pos (by simp [hrad])]
        exact closestScan_isSome_of_acc cx cy rest _ _
      · split
        · exact closestScan_isSome_of_acc cx cy rest _ _
        · exact closestScan_isSome_of_acc cx cy rest i m
    · simp only [closestScan]
      split
      · exact closestScan_isSome_of_acc cx cy rest _ _
      · exact closestScan_isSome cx cy rest _ t hmem hrad

/-- C4 counterexample: variant A's sticker target scan (part_003 lines
497-507) walks the store from the last element backwards and takes the FIRST
sticker within the interaction radius; with the nearer sticker earlier in the
store it returns the farther one, so the chosen target is not the nearest. -/
theorem C4_counterexample :
    resolveStickerTargetA 0 0 [demoStickerNear, demoStickerFar] = Option.some "far" ∧
    distSq demoStickerNear.x demoStickerNear.y 0 0 < INTERACTION_RADIUS ^ 2 ∧
    distSq demoStickerNear.x demoStickerNear.y 0 0 <
      distSq demoStickerFar.x demoStickerFar.y 0 0 := by
  refine ⟨?_, by norm_num [distSq, demoStickerNear, INTERACTION_RADIUS],
          by norm_num [distSq, demoStickerNear, demoStickerFar]⟩
  have hfar : decide (distSq demoStickerFar.x demoStickerFar.y 0 0 <
      INTERACTION_RADIUS ^ 2) = true :=
    decide_eq_true (by norm_num [distSq, demoStickerFar, INTERACTION_RADIUS])
  unfold resolveStickerTargetA
  rw [show ([demoStickerNear, demoStickerFar]).reverse =
        [demoStickerFar, demoStickerNear] from rfl]
  simp only [List.find?]
  rw [hfar]
  rfl

/-- C4 (amended): asset buttons take priority over category buttons, which
take priority over stickers, in both variants; among stickers the variant-B
resolver returns a nearest non-lifespan sticker within the 60px radius and
returns one whenever such a sticker exists, while the variant-A resolver
returns the last sticker in store order within the radius regardless of
distance (see the counterexample). -/
theorem C4_hover_resolution :
    (∀ (bid : String) (cx cy : ℚ) (stickers : List StickerItem),
       strStartsWith bid "asset-btn-" = true →
       resolveHoverTargetB (Option.some bid) cx cy stickers =
         Option.some (bid.drop "asset-btn-".length, TargetType.button_asset)) ∧
    (∀ (bid : String) (cx cy : ℚ) (stickers : List StickerItem),
       strStartsWith bid "asset-btn-" = false → strStartsWith bid "cat-btn-" = true →
       resolveHoverTargetB (Option.some bid) cx cy stickers =
         Option.some (bid.drop "cat-btn-".length, TargetType.button_cat)) ∧
    (∀ (aid : String) (btnCat : Option String) (cx cy : ℚ)
       (stickers : List StickerItem),
       resolveHoverTargetA (Option.some aid) btnCat cx cy stickers =
         Option.some (aid, TargetType.button_asset)) ∧
    (∀ (cid : String) (cx cy : ℚ) (stickers : List StickerItem),
       resolveHoverTargetA Option.none (Option.some cid) cx cy stickers =
         Option.some (cid, TargetType.button_cat)) ∧
    (∀ (cx cy : ℚ) (stickers : List StickerItem) (id : String),
       resolveStickerTargetB cx cy stickers = Option.some id →
       ∃ s ∈ stickers, s.id = id ∧ truthy s.lifespan = false ∧
         distSq s.x s.y cx cy < INTERACTION_RADIUS ^ 2 ∧
         ∀ t ∈ stickers, truthy t.lifespan = false →
           distSq t.x t.y cx cy < INTERACTION_RADIUS ^ 2 →
           distSq s.x s.y cx cy ≤ distSq t.x t.y cx cy) ∧
    (∀ (cx cy : ℚ) (stickers : List StickerItem) (t : StickerItem),
       t ∈ stickers → truthy t.lifespan = false →
       distSq t.x t.y cx cy < INTERACTION_RADIUS ^ 2 →
       (resolveStickerTargetB cx cy stickers).isSome = true) := by
  refine ⟨?_, ?_, ?_, ?_, ?_, ?_⟩
  · intro bid cx cy stickers h
    simp [resolveHoverTargetB, h]
  · intro bid cx cy stickers h1 h2
    simp [resolveHoverTargetB, h1, h2]
  · intro aid btnCat cx cy stickers
    rfl
  · intro cid cx cy stickers
    rfl
  · intro cx cy stickers id hres
    unfold resolveStickerTargetB at hres
    obtain ⟨p, hscan, hid⟩ := Option.map_eq_some'.mp hres
    rcases closestScan_sound cx cy _ Option.none p hscan with hnone | hfound
    · exact absurd hnone (by simp)
    · obtain ⟨s, hsmem, hsid, hsd, hrad⟩ := hfound
      obtain ⟨hmem, hpred⟩ := List.mem_filter.mp hsmem
      refine ⟨s, hmem, hsid.trans hid, ?_, by rw [hsd]; exact hrad, ?_⟩
      · simpa using hpred
      · intro t htmem htlife htrad
        have htfilter : t ∈ stickers.filter (fun s => !truthy s.lifespan) :=
          List.mem_filter.mpr ⟨htmem, by simp [htlife]⟩
        rw [hsd]
        exact closestScan_min cx cy _ Option.none p hscan t htfilter htrad
  · intro cx cy stickers t htmem htlife htrad
    have htfilter : t ∈ stickers.filter (fun s => !truthy s.lifespan) :=
      List.mem_filter.mpr ⟨htmem, by simp [htlife]⟩
    have hsome := closestScan_isSome cx cy _ Option.none t htfilter htrad
    obtain ⟨p, hp⟩ := Option.isSome_iff_exists.mp hsome
    simp [resolveStickerTargetB, hp]

/-- C4 witness: the resolution priorities and the nearest-sticker property on
concrete inputs (the nearer sticker is returned even when it comes later in
the store). -/
theorem C4_hover_resolution_witness :
    resolveHoverTargetB (Option.some "asset-btn-h1") 0 0 [] =
      Option.some ("asset-btn-h1".drop "asset-btn-".length, TargetType.button_asset) ∧
    resolveHoverTargetB (Option.some "cat-btn-hats") 0 0 [] =
      Option.some ("cat-btn-hats".drop "cat-btn-".length, TargetType.button_cat) ∧
    (∃ s ∈ [demoStickerFar, demoStickerNear], s.id = "near" ∧
       truthy s.lifespan = false ∧
       distSq s.x s.y 0 0 < INTERACTION_RADIUS ^ 2 ∧
       ∀ t ∈ [demoStickerFar, demoStickerNear], truthy t.lifespan = false →
         distSq t.x t.y 0 0 < INTERACTION_RADIUS ^ 2 →
         distSq s.x s.y 0 0 ≤ distSq t.x t.y 0 0) :=
  ⟨C4_hover_resolution.1 "asset-btn-h1" 0 0 [] (by decide),
   C4_hover_resolution.2.1 "cat-btn-hats" 0 0 [] (by decide) (by decide),
   C4_hover_resolution.2.2.2.2.1 0 0 [demoStickerFar, demoStickerNear] "near"
     (by norm_num [resolveStickerTargetB, closestScan, truthy, distSq,
                   demoStickerFar, demoStickerNear, INTERACTION_RADIUS])⟩

/-- C10 counterexample: variant A's sticker target scan has no lifespan
filter — a transient effect sticker under the cursor is selected as the hover
target. -/
theorem C10_counterexample :
    resolveStickerTargetA 0 0 [demoEffectSticker] = Option.some "fx-1" ∧
    truthy demoEffectSticker.lifespan = true := by
  constructor
  · have hin : decide (distSq demoEffectSticker.x demoEffectSticker.y 0 0 <
        INTERACTION_RADIUS ^ 2) = true :=
      decide_eq_true (by norm_num [distSq, demoEffectSticker, INTERACTION_RADIUS])
    unfold resolveStickerTargetA
    rw [show ([demoEffectSticker]).reverse = [demoEffectSticker] from rfl]
    simp only [List.find?]
    rw [hin]
    rfl
  · rfl

/-- C10 (amended): the variant-B sticker resolution filters the store down to
stickers without a (truthy) lifespan before scanning, so any target it
returns is the id of a non-lifespan sticker; the variant-A scan (part_003
lines 497-507) has no such filter and can select a lifespan sticker (see the
counterexample). -/
theorem C10_no_lifespan_targets (cx cy : ℚ) (stickers : List StickerItem)
    (id : String) (hres : resolveStickerTargetB cx cy stickers = Option.some id) :
    ∃ s ∈ stickers, s.id = id ∧ truthy s.lifespan = false := by
  unfold resolveStickerTargetB at hres
  obtain ⟨p, hscan, hid⟩ := Option.map_eq_some'.mp hres
  rcases closestScan_sound cx cy _ Option.none p hscan with hnone | hfound
  · exact absurd hnone (by simp)
  · obtain ⟨s, hsmem, hsid, _, _⟩ := hfound
    obtain ⟨hmem, hpred⟩ := List.mem_filter.mp hsmem
    exact ⟨s, hmem, hsid.trans hid, by simpa using hpred⟩

/-- C10 witness: with an effect sticker sitting exactly under the cursor and a
permanent sticker nearby, the variant-B resolution skips the effect sticker
and returns the permanent one. -/
theorem C10_no_lifespan_targets_witness :
    ∃ s ∈ [demoEffectSticker, demoStickerNear], s.id = "near" ∧
      truthy s.lifespan = false :=
  C10_no_lifespan_targets 0 0 [demoEffectSticker, demoStickerNear] "near"
    (by norm_num [resolveStickerTargetB, closestScan, truthy, distSq,
                  demoEffectSticker, demoStickerNear, INTERACTION_RADIUS])

/-- Any two consecutive recognized swipe events are separated by more than
the cooldown, and the first one fires more than a cooldown after the recorded
last-gesture time: the fire times extend `lastGestureTime` as a chain. -/
theorem swipeRun_chain (cooldown velThreshold : ℚ) :
    ∀ (frames : List (ℚ × ℚ × Bool × Bool)) (st : SwipeState),
      List.Chain (fun a b => b - a > cooldown) st.lastGestureTime
        (swipeRun cooldown velThreshold frames st)
  | [], _ => List.Chain.nil
  | (now, handX, actionOk, isPlaying) :: rest, st => by
    rcases hpos : st.lastHandPosX with _ | lastX
    · have htail := swipeRun_chain cooldown velThreshold rest
        { lastGestureTime := st.lastGestureTime, lastHandPosX := Option.some handX }
      simpa [swipeRun, swipeStep, hpos] using htail
    · by_cases hf : (decide (now - st.lastGestureTime > cooldown) && !isPlaying &&
          decide (abs (handX - lastX) > velThreshold) && actionOk) = true
      · have hgt : now - st.lastGestureTime > cooldown := by
          simp only [Bool.and_eq_true, decide_eq_true_eq] at hf
          exact hf.1.1.1
        have htail := swipeRun_chain cooldown velThreshold rest
          { lastGestureTime := now, lastHandPosX := Option.some handX }
        simp only [swipeRun, swipeStep, hpos, hf, if_true, List.singleton_append]
        exact List.Chain.cons hgt (by simpa using htail)
      · have htail := swipeRun_chain cooldown velThreshold rest
          { lastGestureTime := st.lastGestureTime, lastHandPosX := Option.some handX }
        simp only [Bool.not_eq_true] at hf
        simpa [swipeRun, swipeStep, hpos, hf] using htail

/-- C5: swipe recognition is edge-triggered — every recognized swipe is more
than a full cooldown after the previous one (so at most one fires per
cooldown window however long the qualifying condition holds), both variants'
cooldowns are at least 800 ms, and a continuous qualifying signal sampled
every 100 ms over three 800 ms cooldown windows yields exactly three events,
evenly spaced 900 ms apart. -/
theorem C5_swipe_edge_triggered :
    (∀ (cooldown velThreshold : ℚ) (frames : List (ℚ × ℚ × Bool × Bool))
       (st : SwipeState),
       List.Chain (fun a b => b - a > cooldown) st.lastGestureTime
         (swipeRun cooldown velThreshold frames st)) ∧
    (800 : ℚ) ≤ GESTURE_COOLDOWN_MS_A ∧ (800 : ℚ) ≤ GESTURE_COOLDOWN_MS_B ∧
    swipeRun GESTURE_COOLDOWN_MS_A SWIPE_VELOCITY_THRESHOLD_A demoSwipeFrames
      ⟨0, Option.none⟩ = [1000, 1900, 2800] := by
  refine ⟨swipeRun_chain, by norm_num [GESTURE_COOLDOWN_MS_A],
          by norm_num [GESTURE_COOLDOWN_MS_B], ?_⟩
  norm_num [demoSwipeFrames, swipeRun, swipeStep,
            GESTURE_COOLDOWN_MS_A, SWIPE_VELOCITY_THRESHOLD_A]

/-- C6 counterexample: in variant A (part_003 lines 448-541) the interaction
logic is guarded by `if (handDetected && !isPlaying)` with no else branch, so
on a frame without a hand a dragging interaction state is left as it is: no
transition to idle and no drop commit happens. -/
theorem C6_counterexample :
    (interactionFrameA (fun st stickers => (st, stickers)) false false
        demoDraggingState [demoAnchoredSticker]).1 = demoDraggingState ∧
    (interactionFrameA (fun st stickers => (st, stickers)) false false
        demoDraggingState [demoAnchoredSticker]).2 = [demoAnchoredSticker] ∧
    demoDraggingState.status = Status.dragging ∧
    demoDraggingState ≠ idleInteraction := by
  refine ⟨rfl, rfl, rfl, ?_⟩
  intro h
  have := congrArg InteractionState.status h
  simp [demoDraggingState, idleInteraction] at this

/-- C6 (amended): in variant B (part_004 lines 393-398) a frame without a
detected hand resets the interaction state to idle, and when a sticker drag
was active the drop side effect (`handleHandDrop`) is committed to the store
first; in variant A the state and the store are simply left unchanged on a
no-hand frame. -/
theorem C6_no_hand_transitions
    (handLogic : InteractionState → List StickerItem →
      InteractionState × List StickerItem)
    (rectW rectH : ℚ) (fd : Option AnchorData) (st : InteractionState)
    (stickers : List StickerItem) (tid : String)
    (hdrag : st.status = Status.dragging) (htid : st.targetId = Option.some tid)
    (htt : st.targetType = TargetType.sticker) :
    (interactionFrameB handLogic false rectW rectH fd st stickers).1 =
      idleInteraction ∧
    (interactionFrameB handLogic false rectW rectH fd st stickers).2 =
      handleHandDrop rectW rectH fd tid stickers ∧
    (∀ (st' : InteractionState) (stickers' : List StickerItem),
       (interactionFrameB handLogic false rectW rectH fd st' stickers').1 =
         idleInteraction) ∧
    (∀ (handLogicA : InteractionState → List StickerItem →
         InteractionState × List StickerItem)
       (isPlaying : Bool) (st' : InteractionState) (stickers' : List StickerItem),
       interactionFrameA handLogicA false isPlaying st' stickers' =
         (st', stickers')) := by
  refine ⟨rfl, ?_, fun st' stickers' => rfl, fun _ _ _ _ => rfl⟩
  simp [interactionFrameB, noHandStepB, htid, hdrag, htt]

/-- C6 witness: the no-hand transitions evaluated on a concrete dragging
state over a one-sticker store. -/
theorem C6_no_hand_transitions_witness :
    (interactionFrameB (fun st stickers => (st, stickers)) false 1000 500
        Option.none demoDraggingState [demoAnchoredSticker]).1 =
      idleInteraction ∧
    (interactionFrameB (fun st stickers => (st, stickers)) false 1000 500
        Option.none demoDraggingState [demoAnchoredSticker]).2 =
      handleHandDrop 1000 500 Option.none "st-1" [demoAnchoredSticker] ∧
    (∀ (st' : InteractionState) (stickers' : List StickerItem),
       (interactionFrameB (fun st stickers => (st, stickers)) false 1000 500
         Option.none st' stickers').1 = idleInteraction) ∧
    (∀ (handLogicA : InteractionState → List StickerItem →
         InteractionState × List StickerItem)
       (isPlaying : Bool) (st' : InteractionState) (stickers' : List StickerItem),
       interactionFrameA handLogicA false isPlaying st' stickers' =
         (st', stickers')) :=
  C6_no_hand_transitions (fun st stickers => (st, stickers)) 1000 500
    Option.none demoDraggingState [demoAnchoredSticker] "st-1" rfl rfl rfl

end MagicMirror









